import Mathlib

/-!
Shallow embedding of the rainwater-harvesting estimation engine in main.py.

Python values are modelled as follows: strings stay String; floats become
exact rationals; a value that may be Python None becomes Option; code that
may raise returns Except String.  The two in-memory dataset dicts, RAIN_DATA
and GROUNDWATER_DATA, are modelled as lookup functions, and the external
collaborators, the pyproj geodesic area kernel and the Nominatim reverse
geocoder, are modelled as parameters: a signed-area oracle and the provider
response.  The JSON layer rounds every numeric output to 2 decimals at the
boundary; that rounding is a function of the full-precision values proved
about here, so the output records carry the full-precision fields of lines
115-120 and 157-171 of main.py.
-/

set_option autoImplicit false

namespace RainWater

/-- Python str.upper; all region names in play are ASCII, where Python
upper-casing agrees with Char.toUpper characterwise. -/
def strUpper (s : String) : String := String.mk (s.data.map Char.toUpper)

/-- Python truthiness of an optional string: None and the empty string are
falsy. -/
def pyTruthy : Option String → Bool
  | none => false
  | some s => s != ""

/-- x.upper() on a possibly-absent value: Python raises AttributeError when
the receiver is None. -/
def pyUpper : Option String → Except String String
  | none => Except.error "AttributeError"
  | some s => Except.ok (strUpper s)

/-- Python a or b on optional strings: a falsy left operand falls through. -/
def pyOr (a b : Option String) : Option String :=
  if pyTruthy a then a else b

/-- One groundwater record of main.py lines 40-43, a dict with an aquifer
label and a depth.  depth = none models the string sentinel N/A; loaded rows
carry a numeric depth. -/
structure GroundwaterInfo where
  aquifer : String
  depth : Option ℚ
  deriving DecidableEq

/-- The sentinel record with aquifer N/A and depth N/A of main.py lines 116,
162 and 169. -/
def gwNA : GroundwaterInfo := ⟨"N/A", none⟩

/-- RAIN_DATA: dict from state key to average annual rainfall in mm per year. -/
abbrev RainData := String → Option ℚ

/-- GROUNDWATER_DATA: dict from state key to a dict from district key to a
groundwater record. -/
abbrev GWData := String → Option (String → Option GroundwaterInfo)

/-- RUNOFF_COEFF = 0.8, main.py line 15. -/
def RUNOFF_COEFF : ℚ := 0.8

/-- STATE_ALIAS maps TELANGANA to ANDHRA PRADESH, main.py lines 57-59. -/
def STATE_ALIAS : List (String × String) := [("TELANGANA", "ANDHRA PRADESH")]

/-- Python STATE_ALIAS.get k; its isSome is the membership test k in
STATE_ALIAS. -/
def aliasGet? (k : String) : Option String :=
  (STATE_ALIAS.find? (fun p => p.1 == k)).map (fun p => p.2)

/-- One raw row of the district wise rainfall normal csv: its STATE_UT_NAME
and ANNUAL fields, one row per district. -/
structure RainRow where
  state_ut_name : String
  annual : ℚ
  deriving DecidableEq

/-- The ANNUAL values of the rows pandas groups under key k.  The groupby on
line 25 of main.py groups the raw STATE_UT_NAME values: only the column names
are cleaned on line 22, the field values are not normalized. -/
def rainGroup (rows : List RainRow) (k : String) : List ℚ :=
  (rows.filter (fun r => r.state_ut_name == k)).map (fun r => r.annual)

/-- load_state_rainfall, main.py lines 18-27: the dict produced by grouping
on STATE_UT_NAME and taking the mean of ANNUAL.  Keys absent from the raw
data are absent from the dict. -/
def load_state_rainfall (rows : List RainRow) : RainData := fun k =>
  let g := rainGroup rows k
  if g.length = 0 then none else some (g.sum / (g.length : ℚ))

/-- The two-level dict lookup with defaults, GROUNDWATER_DATA.get top then
get sub with the N/A sentinel, shared by main.py lines 116 and 169. -/
def gwLookup (gw : GWData) (top sub : String) : GroundwaterInfo :=
  match gw top with
  | none => gwNA
  | some m => (m sub).getD gwNA

/-- The parsed body of a manual-calculate request, main.py lines 105-110;
state and district come from data.get and are hence possibly absent. -/
structure ManualRequest where
  state : Option String
  district : Option String
  area_m2 : ℚ
  coefficient : ℚ
  dwellers : ℤ
  open_space : ℚ
  deriving DecidableEq

/-- The manual-path result record, main.py lines 122-134, with the
full-precision values computed on lines 115-120. -/
structure ManualOutput where
  state : Option String
  district : Option String
  area_m2 : ℚ
  rainfall_mm_per_year : ℚ
  water_litres : ℚ
  dwellers : ℤ
  domestic_demand : ℚ
  sufficiency_percent : ℚ
  feasible : String
  aquifer : String
  groundwater_depth : Option ℚ
  deriving DecidableEq

/-- Lines 112-113 of main.py: when state is truthy and its upper-cased form
is a STATE_ALIAS key, state is replaced by the alias target. -/
def manualAliasState (state : Option String) : Option String :=
  if pyTruthy state then
    match aliasGet? (strUpper (state.getD "")) with
    | some a => some a
    | none => state
  else state

/-- Line 115 of main.py: rainfall is RAIN_DATA.get of the upper-cased state
with default 0 when state is truthy, else 0; applied to the state after alias
substitution. -/
def manualRainfall (rain : RainData) (state : Option String) : ℚ :=
  if pyTruthy state then (rain (strUpper (state.getD ""))).getD 0 else 0

/-- manual_calculate, main.py lines 101-134, from the parsed request.  The
unconditional state.upper() and district.upper() on line 116 raise when the
corresponding field is absent, hence the Except. -/
def manual_calculate (rain : RainData) (gw : GWData) (req : ManualRequest) :
    Except String ManualOutput :=
  let state := manualAliasState req.state
  let rainfall := manualRainfall rain state
  match pyUpper state with
  | Except.error e => Except.error e
  | Except.ok sU =>
    match pyUpper req.district with
    | Except.error e => Except.error e
    | Except.ok dU =>
      let groundwater := gwLookup gw sU dU
      let water_litres := req.area_m2 * rainfall * req.coefficient / 1000
      let domestic_demand : ℚ := (req.dwellers : ℚ) * 135 * 365
      let sufficiency_percent : ℚ :=
        if domestic_demand ≠ 0 then water_litres / domestic_demand * 100 else 0
      let feasible := if req.area_m2 ≥ 20 ∧ rainfall > 200 then "Feasible" else "Not Feasible"
      Except.ok
        { state := state
          district := req.district
          area_m2 := req.area_m2
          rainfall_mm_per_year := rainfall
          water_litres := water_litres
          dwellers := req.dwellers
          domestic_demand := domestic_demand
          sufficiency_percent := sufficiency_percent
          feasible := feasible
          aquifer := groundwater.aquifer
          groundwater_depth := groundwater.depth }

/-- The address breakdown of a Nominatim response, main.py lines 70-74; each
field comes from address.get and is hence possibly absent. -/
structure Address where
  city : Option String
  town : Option String
  village : Option String
  state : Option String
  deriving DecidableEq

/-- get_location_details, main.py lines 64-78, with the provider call
abstracted as its response: Except.error models a raised exception such as a
network failure or timeout, Except.ok none models an empty result. -/
def get_location_details (resp : Except String (Option Address)) :
    Option String × Option String :=
  match resp with
  | Except.error _ => (none, none)
  | Except.ok none => (none, none)
  | Except.ok (some a) => (pyOr (pyOr a.city a.town) a.village, a.state)

/-- calculate_area_m2, main.py lines 80-89, with the WGS84 geodesic kernel
polygon_area_perimeter abstracted as the signed-area oracle polygon_area:
the function returns the absolute value of the signed area. -/
def calculate_area_m2 (polygon_area : List (ℚ × ℚ) → ℚ) (coords : List (ℚ × ℚ)) : ℚ :=
  |polygon_area coords|

/-- The geo-path result record, main.py lines 173-182, with the
full-precision values of lines 157-171; the echoed coordinates field is the
input and is omitted. -/
structure GeoOutput where
  city : Option String
  state : Option String
  area_m2 : ℚ
  rainfall_mm_per_year : ℚ
  water_litres : ℚ
  aquifer : String
  groundwater_depth : Option ℚ
  deriving DecidableEq

/-- calculate, main.py lines 152-182, with the geodesic kernel and the
geocoding response as parameters. -/
def calculate (rain : RainData) (gw : GWData)
    (polygon_area : List (ℚ × ℚ) → ℚ)
    (resp : Except String (Option Address))
    (coords : List (ℚ × ℚ)) : GeoOutput :=
  let area_m2 := calculate_area_m2 polygon_area coords
  let cs := get_location_details resp
  let city := cs.1
  let state := cs.2
  let rg : ℚ × GroundwaterInfo :=
    if pyTruthy state then
      let state_key := (aliasGet? (strUpper (state.getD ""))).getD (strUpper (state.getD ""))
      let rainfall := (rain state_key).getD 0
      let groundwater :=
        if pyTruthy city then gwLookup gw state_key (strUpper (city.getD "")) else gwNA
      (rainfall, groundwater)
    else (0, gwNA)
  let water_litres := area_m2 * rg.1 * RUNOFF_COEFF / 1000
  { city := city
    state := state
    area_m2 := area_m2
    rainfall_mm_per_year := rg.1
    water_litres := water_litres
    aquifer := rg.2.aquifer
    groundwater_depth := rg.2.depth }

/-- The manual-path output record determined by the post-alias state s and
the district d; manual_calculate returns exactly this record whenever both
fields are present. -/
def manualResult (rain : RainData) (gw : GWData) (req : ManualRequest)
    (s d : String) : ManualOutput :=
  { state := some s
    district := some d
    area_m2 := req.area_m2
    rainfall_mm_per_year := manualRainfall rain (some s)
    water_litres := req.area_m2 * manualRainfall rain (some s) * req.coefficient / 1000
    dwellers := req.dwellers
    domestic_demand := (req.dwellers : ℚ) * 135 * 365
    sufficiency_percent :=
      if ((req.dwellers : ℚ) * 135 * 365) ≠ 0 then
        req.area_m2 * manualRainfall rain (some s) * req.coefficient / 1000 /
          ((req.dwellers : ℚ) * 135 * 365) * 100
      else 0
    feasible :=
      if req.area_m2 ≥ 20 ∧ manualRainfall rain (some s) > 200 then "Feasible"
      else "Not Feasible"
    aquifer := (gwLookup gw (strUpper s) (strUpper d)).aquifer
    groundwater_depth := (gwLookup gw (strUpper s) (strUpper d)).depth }

/-- Concrete rainfall table used for instantiations: KERALA averages
200.01 mm per year. -/
def rainW : RainData := fun k => if k == "KERALA" then some (20001 / 100 : ℚ) else none

/-- Concrete groundwater table used for instantiations: a single entry for
KERALA and ERNAKULAM. -/
def gwW : GWData := fun k =>
  if k == "KERALA" then
    some (fun d => if d == "ERNAKULAM" then some ⟨"Alluvial", some 8⟩ else none)
  else none

/-- A concrete well-formed manual request. -/
def reqW : ManualRequest := ⟨some "Kerala", some "Ernakulam", 20, 4/5, 4, 0⟩

/-- The output of manual_calculate on reqW. -/
def outW : ManualOutput := manualResult rainW gwW reqW "Kerala" "Ernakulam"

/-- A manual request with household size 0, reaching the zero-demand guard. -/
def req0 : ManualRequest := ⟨some "Kerala", some "Ernakulam", 20, 4/5, 0, 0⟩

/-- The output of manual_calculate on req0. -/
def out0 : ManualOutput := manualResult rainW gwW req0 "Kerala" "Ernakulam"

/-- A manual request whose state field is absent. -/
def req10 : ManualRequest := ⟨none, some "Ernakulam", 20, 4/5, 1, 0⟩

/-- A manual request naming a state and district absent from gwW. -/
def reqP : ManualRequest := ⟨some "Punjab", some "Ludhiana", 30, 4/5, 2, 0⟩

/-- A geocoder address resolving to the same region as reqP. -/
def addrP : Address := ⟨some "Ludhiana", none, none, some "Punjab"⟩

/-- A concrete signed-area oracle returning a negative signed area. -/
def paW : List (ℚ × ℚ) → ℚ := fun _ => -5

/-- A concrete 3-vertex polygon. -/
def coordsW : List (ℚ × ℚ) := [(0, 0), (0, 1), (1, 0)]

/-- A signed-area oracle that is odd under reversal of coordsW. -/
def paC8 : List (ℚ × ℚ) → ℚ := fun l => if l = coordsW then (-7 : ℚ) else 7

/-- A raw rainfall dataset whose top-level key is not upper-cased. -/
def rowsCex : List RainRow := [⟨"Kerala", 3000⟩]

/-- A raw rainfall dataset with two district rows under one upper-cased
top-level key. -/
def rowsW : List RainRow := [⟨"KERALA", 2800⟩, ⟨"KERALA", 3200⟩]

theorem manual_ok_fwd (rain : RainData) (gw : GWData) (req : ManualRequest)
    (s d : String) (hs : manualAliasState req.state = some s)
    (hd : req.district = some d) :
    manual_calculate rain gw req = Except.ok (manualResult rain gw req s d) := by
  simp [manual_calculate, hs, hd, pyUpper, manualResult]

theorem manual_ok_inv (rain : RainData) (gw : GWData) (req : ManualRequest)
    (out : ManualOutput) (h : manual_calculate rain gw req = Except.ok out) :
    ∃ s d, manualAliasState req.state = some s ∧ req.district = some d ∧
      out = manualResult rain gw req s d := by
  cases hs : manualAliasState req.state with
  | none => simp [manual_calculate, hs, pyUpper] at h
  | some s =>
    cases hd : req.district with
    | none => simp [manual_calculate, hs, hd, pyUpper] at h
    | some d =>
      refine ⟨s, d, rfl, rfl, ?_⟩
      have hf := manual_ok_fwd rain gw req s d hs hd
      rw [hf] at h
      exact (Except.ok.injEq _ _).mp h |>.symm

/-- Claim C1: in both estimation paths the harvested volume equals area
times rainfall times runoff coefficient divided by 1000; the geo path uses
the fixed constant 0.8 and the manual path the caller-supplied coefficient. -/
theorem water_litres_formula
    (rain : RainData) (gw : GWData) (req : ManualRequest) (out : ManualOutput)
    (h : manual_calculate rain gw req = Except.ok out)
    (pa : List (ℚ × ℚ) → ℚ) (resp : Except String (Option Address))
    (coords : List (ℚ × ℚ)) :
    out.water_litres = out.area_m2 * out.rainfall_mm_per_year * req.coefficient / 1000 ∧
    (calculate rain gw pa resp coords).water_litres =
      (calculate rain gw pa resp coords).area_m2 *
        (calculate rain gw pa resp coords).rainfall_mm_per_year * (0.8 : ℚ) / 1000 := by
  constructor
  · obtain ⟨s, d, hs, hd, rfl⟩ := manual_ok_inv rain gw req out h
    simp [manualResult]
  · simp [calculate, RUNOFF_COEFF]

/-- Witness for claim C1 at a concrete request, table pair, oracle and
polygon. -/
theorem water_litres_formula_witness :
    manual_calculate rainW gwW reqW = Except.ok outW ∧
    (outW.water_litres = outW.area_m2 * outW.rainfall_mm_per_year * reqW.coefficient / 1000 ∧
     (calculate rainW gwW paW (Except.ok none) coordsW).water_litres =
       (calculate rainW gwW paW (Except.ok none) coordsW).area_m2 *
         (calculate rainW gwW paW (Except.ok none) coordsW).rainfall_mm_per_year *
           (0.8 : ℚ) / 1000) := by
  have h : manual_calculate rainW gwW reqW = Except.ok outW :=
    manual_ok_fwd rainW gwW reqW "Kerala" "Ernakulam" (by decide) rfl
  exact ⟨h, water_litres_formula rainW gwW reqW outW h paW (Except.ok none) coordsW⟩

/-- Claim C2: every manual estimation is classified Feasible exactly when the
area is at least 20 and the rainfall strictly exceeds 200, and otherwise Not
Feasible. -/
theorem feasible_iff
    (rain : RainData) (gw : GWData) (req : ManualRequest) (out : ManualOutput)
    (h : manual_calculate rain gw req = Except.ok out) :
    (out.feasible = "Feasible" ↔ 20 ≤ out.area_m2 ∧ 200 < out.rainfall_mm_per_year) ∧
    (out.feasible = "Feasible" ∨ out.feasible = "Not Feasible") := by
  obtain ⟨s, d, hs, hd, rfl⟩ := manual_ok_inv rain gw req out h
  constructor
  · by_cases hc : req.area_m2 ≥ 20 ∧ manualRainfall rain (some s) > 200
    · simp [manualResult, hc]
    · simp only [manualResult, if_neg hc]
      constructor
      · intro he; exact absurd he (by decide)
      · intro hc2; exact absurd hc2 hc
  · by_cases hc : req.area_m2 ≥ 20 ∧ manualRainfall rain (some s) > 200
    · exact Or.inl (by simp [manualResult, hc])
    · exact Or.inr (by simp [manualResult, hc])

/-- Witness for claim C2: area exactly 20 with rainfall 200.01 is classified
Feasible. -/
theorem feasible_iff_witness :
    manual_calculate rainW gwW reqW = Except.ok outW ∧
    ((outW.feasible = "Feasible" ↔ 20 ≤ outW.area_m2 ∧ 200 < outW.rainfall_mm_per_year) ∧
     (outW.feasible = "Feasible" ∨ outW.feasible = "Not Feasible")) ∧
    outW.feasible = "Feasible" := by
  have h : manual_calculate rainW gwW reqW = Except.ok outW :=
    manual_ok_fwd rainW gwW reqW "Kerala" "Ernakulam" (by decide) rfl
  have hup : strUpper "Kerala" = "KERALA" := by decide
  have hr : manualRainfall rainW (some "Kerala") = 20001 / 100 := by
    simp [manualRainfall, pyTruthy, hup, rainW]
  refine ⟨h, feasible_iff rainW gwW reqW outW h, ?_⟩
  simp only [outW, manualResult, reqW, hr]
  norm_num

/-- Claim C3: for every manual estimation the domestic demand is household
size times 135 times 365 and the sufficiency percentage is harvested volume
divided by demand times 100, with value 0 when the demand is 0, without any
division error. -/
theorem demand_and_sufficiency
    (rain : RainData) (gw : GWData) (req : ManualRequest) (out : ManualOutput)
    (h : manual_calculate rain gw req = Except.ok out) :
    out.domestic_demand = (req.dwellers : ℚ) * 135 * 365 ∧
    (out.domestic_demand ≠ 0 →
      out.sufficiency_percent = out.water_litres / out.domestic_demand * 100) ∧
    (out.domestic_demand = 0 → out.sufficiency_percent = 0) := by
  obtain ⟨s, d, hs, hd, rfl⟩ := manual_ok_inv rain gw req out h
  refine ⟨by simp [manualResult], ?_, ?_⟩
  · intro hne
    simp only [manualResult] at hne ⊢
    rw [if_pos hne]
  · intro hz
    simp only [manualResult] at hz ⊢
    rw [if_neg (by simpa using hz)]

/-- Witness for claim C3 at household size 0: the demand is 0 and the
sufficiency percentage is 0. -/
theorem demand_and_sufficiency_witness :
    manual_calculate rainW gwW req0 = Except.ok out0 ∧
    (out0.domestic_demand = ((req0.dwellers : ℚ) * 135 * 365) ∧
     (out0.domestic_demand ≠ 0 →
       out0.sufficiency_percent = out0.water_litres / out0.domestic_demand * 100) ∧
     (out0.domestic_demand = 0 → out0.sufficiency_percent = 0)) ∧
    out0.domestic_demand = 0 ∧ out0.sufficiency_percent = 0 := by
  have h : manual_calculate rainW gwW req0 = Except.ok out0 :=
    manual_ok_fwd rainW gwW req0 "Kerala" "Ernakulam" (by decide) rfl
  have hd : out0.domestic_demand = 0 := by
    simp [out0, manualResult, req0]
  refine ⟨h, demand_and_sufficiency rainW gwW req0 out0 h, hd, ?_⟩
  exact (demand_and_sufficiency rainW gwW req0 out0 h).2.2 hd

/-- Claim C4 as stated is false on the code: load_state_rainfall does not
normalize the STATE_UT_NAME field values, so a dataset whose raw key Kerala
is not upper-cased yields a table containing key Kerala with mean 3000 while
the aliased upper-casing lookup of lines 112-115 returns 0, not that mean. -/
theorem rainfall_lookup_cex :
    load_state_rainfall rowsCex "Kerala" = some 3000 ∧
    manualRainfall (load_state_rainfall rowsCex) (manualAliasState (some "Kerala")) = 0 ∧
    (0 : ℚ) ≠ 3000 := by
  refine ⟨?_, ?_, by norm_num⟩
  · simp [load_state_rainfall, rainGroup, rowsCex]
  · have ha : manualAliasState (some "Kerala") = some "Kerala" := by decide
    have hup : strUpper "Kerala" = "KERALA" := by decide
    rw [ha]
    simp [manualRainfall, pyTruthy, hup, load_state_rainfall, rainGroup, rowsCex]

/-- Claim C4 amended: the rainfall table is keyed by the raw, un-normalized
STATE_UT_NAME values, and a lookup after alias substitution upper-cases its
key, so it returns exactly the arithmetic mean of the ANNUAL values grouped
under the upper-cased key whenever that group is nonempty, that is, whenever
the dataset stores the region under its upper-cased name. -/
theorem rainfall_mean_after_alias (rows : List RainRow) (st : Option String) (s : String)
    (hs : manualAliasState st = some s) (hne : s ≠ "")
    (hg : rainGroup rows (strUpper s) ≠ []) :
    manualRainfall (load_state_rainfall rows) (manualAliasState st) =
      (rainGroup rows (strUpper s)).sum / ((rainGroup rows (strUpper s)).length : ℚ) := by
  rw [hs]
  have hlen : (rainGroup rows (strUpper s)).length ≠ 0 := by
    simpa [List.length_eq_zero] using hg
  simp [manualRainfall, pyTruthy, hne, load_state_rainfall, hlen]

/-- Witness for the amended claim C4: two KERALA rows of 2800 and 3200
average to 3000, which the lookup for state Kerala returns exactly. -/
theorem rainfall_mean_after_alias_witness :
    manualAliasState (some "Kerala") = some "Kerala" ∧
    ("Kerala" : String) ≠ "" ∧
    rainGroup rowsW (strUpper "Kerala") ≠ [] ∧
    manualRainfall (load_state_rainfall rowsW) (manualAliasState (some "Kerala")) =
      (rainGroup rowsW (strUpper "Kerala")).sum /
        ((rainGroup rowsW (strUpper "Kerala")).length : ℚ) ∧
    manualRainfall (load_state_rainfall rowsW) (manualAliasState (some "Kerala")) = 3000 := by
  have ha : manualAliasState (some "Kerala") = some "Kerala" := by decide
  have hne : ("Kerala" : String) ≠ "" := by decide
  have hup : strUpper "Kerala" = "KERALA" := by decide
  have hg : rainGroup rowsW (strUpper "Kerala") ≠ [] := by
    rw [hup]; decide
  have happ := rainfall_mean_after_alias rowsW (some "Kerala") "Kerala" ha hne hg
  refine ⟨ha, hne, hg, happ, ?_⟩
  rw [happ, hup]
  norm_num [rainGroup, rowsW]

/-- Claim C5: alias substitution precedes every rainfall and groundwater
lookup in both paths, so state TELANGANA yields the same rainfall value and
the same groundwater pair as state ANDHRA PRADESH for the same district. -/
theorem alias_telangana (rain : RainData) (gw : GWData) (d : String)
    (area coeff os : ℚ) (dw : ℤ)
    (pa : List (ℚ × ℚ) → ℚ) (coords : List (ℚ × ℚ)) (a : Address) :
    (∃ o1 o2,
      manual_calculate rain gw ⟨some "TELANGANA", some d, area, coeff, dw, os⟩ =
        Except.ok o1 ∧
      manual_calculate rain gw ⟨some "ANDHRA PRADESH", some d, area, coeff, dw, os⟩ =
        Except.ok o2 ∧
      o1.rainfall_mm_per_year = o2.rainfall_mm_per_year ∧
      o1.aquifer = o2.aquifer ∧ o1.groundwater_depth = o2.groundwater_depth) ∧
    ((calculate rain gw pa (Except.ok (some { a with state := some "TELANGANA" }))
        coords).rainfall_mm_per_year =
     (calculate rain gw pa (Except.ok (some { a with state := some "ANDHRA PRADESH" }))
        coords).rainfall_mm_per_year ∧
     (calculate rain gw pa (Except.ok (some { a with state := some "TELANGANA" }))
        coords).aquifer =
     (calculate rain gw pa (Except.ok (some { a with state := some "ANDHRA PRADESH" }))
        coords).aquifer ∧
     (calculate rain gw pa (Except.ok (some { a with state := some "TELANGANA" }))
        coords).groundwater_depth =
     (calculate rain gw pa (Except.ok (some { a with state := some "ANDHRA PRADESH" }))
        coords).groundwater_depth) := by
  constructor
  · have ha1 : manualAliasState (some "TELANGANA") = some "ANDHRA PRADESH" := by decide
    have ha2 : manualAliasState (some "ANDHRA PRADESH") = some "ANDHRA PRADESH" := by decide
    have h1 := manual_ok_fwd rain gw ⟨some "TELANGANA", some d, area, coeff, dw, os⟩
      "ANDHRA PRADESH" d ha1 rfl
    have h2 := manual_ok_fwd rain gw ⟨some "ANDHRA PRADESH", some d, area, coeff, dw, os⟩
      "ANDHRA PRADESH" d ha2 rfl
    exact ⟨_, _, h1, h2, rfl, rfl, rfl⟩
  · have e1 : (aliasGet? (strUpper "TELANGANA")).getD (strUpper "TELANGANA") =
        "ANDHRA PRADESH" := by decide
    have e2 : (aliasGet? (strUpper "ANDHRA PRADESH")).getD (strUpper "ANDHRA PRADESH") =
        "ANDHRA PRADESH" := by decide
    have t1 : pyTruthy (some "TELANGANA") = true := by decide
    have t2 : pyTruthy (some "ANDHRA PRADESH") = true := by decide
    refine ⟨?_, ?_, ?_⟩ <;>
      simp [calculate, get_location_details, t1, t2, e1, e2]

/-- Claim C6: a top or sub key pair absent from the groundwater table at
either level resolves to the N/A sentinel pair in the shared lookup and in
the outputs of both estimation paths, and the manual path still returns a
result rather than raising. -/
theorem gw_absent_sentinel (rain : RainData) (gw : GWData) (top sub : String)
    (habs : gw top = none ∨ ∃ m, gw top = some m ∧ m sub = none) :
    gwLookup gw top sub = gwNA ∧
    (∀ req s d, manualAliasState req.state = some s → req.district = some d →
        strUpper s = top → strUpper d = sub →
        ∃ out, manual_calculate rain gw req = Except.ok out ∧
          out.aquifer = "N/A" ∧ out.groundwater_depth = none) ∧
    (∀ pa coords (a : Address) (st c : String),
        a.state = some st → st ≠ "" →
        pyOr (pyOr a.city a.town) a.village = some c → c ≠ "" →
        (aliasGet? (strUpper st)).getD (strUpper st) = top → strUpper c = sub →
        (calculate rain gw pa (Except.ok (some a)) coords).aquifer = "N/A" ∧
        (calculate rain gw pa (Except.ok (some a)) coords).groundwater_depth = none) := by
  have hlook : gwLookup gw top sub = gwNA := by
    rcases habs with h | ⟨m, hm, hsub⟩
    · simp [gwLookup, h]
    · simp [gwLookup, hm, hsub]
  refine ⟨hlook, ?_, ?_⟩
  · intro req s d hs hd hts htd
    refine ⟨manualResult rain gw req s d, manual_ok_fwd rain gw req s d hs hd, ?_, ?_⟩
    · simp [manualResult, hts, htd, hlook, gwNA]
    · simp [manualResult, hts, htd, hlook, gwNA]
  · intro pa coords a st c hst hstne hc hcne hkey hsub2
    have hl : get_location_details (Except.ok (some a)) = (some c, some st) := by
      simp [get_location_details, hc, hst]
    have ht1 : pyTruthy (some st) = true := by simp [pyTruthy, bne_iff_ne]; exact hstne
    have ht2 : pyTruthy (some c) = true := by simp [pyTruthy, bne_iff_ne]; exact hcne
    constructor <;>
      simp [calculate, hl, ht1, ht2, hkey, hsub2, hlook, gwNA]

/-- Witness for claim C6 at the pair PUNJAB and LUDHIANA, absent from gwW, in
both paths. -/
theorem gw_absent_sentinel_witness :
    (gwW "PUNJAB" = none ∨ ∃ m, gwW "PUNJAB" = some m ∧ m "LUDHIANA" = none) ∧
    gwLookup gwW "PUNJAB" "LUDHIANA" = gwNA ∧
    (∃ out, manual_calculate rainW gwW reqP = Except.ok out ∧
      out.aquifer = "N/A" ∧ out.groundwater_depth = none) ∧
    (calculate rainW gwW paW (Except.ok (some addrP)) coordsW).aquifer = "N/A" ∧
    (calculate rainW gwW paW (Except.ok (some addrP)) coordsW).groundwater_depth = none := by
  have habs : gwW "PUNJAB" = none ∨ ∃ m, gwW "PUNJAB" = some m ∧ m "LUDHIANA" = none :=
    Or.inl rfl
  have happ := gw_absent_sentinel rainW gwW "PUNJAB" "LUDHIANA" habs
  refine ⟨habs, happ.1, ?_, ?_⟩
  · exact happ.2.1 reqP "Punjab" "Ludhiana" (by decide) rfl (by decide) (by decide)
  · exact happ.2.2 paW coordsW addrP "Punjab" "Ludhiana" rfl (by decide) rfl (by decide)
      (by decide) (by decide)

/-- Claim C7: when the region resolver fails, by provider error or by empty
result, it returns absent for both city and state without raising, and the
geo-derived estimation still completes with null city and state, rainfall 0,
water 0, the N/A groundwater pair, and the area still computed from the
polygon. -/
theorem geo_failure_degrades (rain : RainData) (gw : GWData)
    (pa : List (ℚ × ℚ) → ℚ) (coords : List (ℚ × ℚ))
    (resp : Except String (Option Address))
    (h : (∃ e, resp = Except.error e) ∨ resp = Except.ok none) :
    get_location_details resp = (none, none) ∧
    calculate rain gw pa resp coords =
      { city := none
        state := none
        area_m2 := calculate_area_m2 pa coords
        rainfall_mm_per_year := 0
        water_litres := 0
        aquifer := "N/A"
        groundwater_depth := none } := by
  have hloc : get_location_details resp = (none, none) := by
    rcases h with ⟨e, rfl⟩ | rfl <;> rfl
  refine ⟨hloc, ?_⟩
  simp [calculate, hloc, pyTruthy, gwNA]

/-- Witness for claim C7 at an empty geocoder result over a concrete polygon
whose oracle area is negative 5, so the output area is 5. -/
theorem geo_failure_degrades_witness :
    ((∃ e, (Except.ok none : Except String (Option Address)) = Except.error e) ∨
      (Except.ok none : Except String (Option Address)) = Except.ok none) ∧
    (get_location_details (Except.ok none) = (none, none) ∧
     calculate rainW gwW paW (Except.ok none) coordsW =
       { city := none
         state := none
         area_m2 := calculate_area_m2 paW coordsW
         rainfall_mm_per_year := 0
         water_litres := 0
         aquifer := "N/A"
         groundwater_depth := none }) ∧
    calculate_area_m2 paW coordsW = 5 := by
  refine ⟨Or.inr rfl, geo_failure_degrades rainW gwW paW coordsW (Except.ok none)
    (Or.inr rfl), ?_⟩
  norm_num [calculate_area_m2, paW]

/-- Claim C8: for every polygon of at least 3 coordinate pairs the area
calculator returns the absolute value of the signed geodesic area supplied by
the oracle, hence a value at least 0, and the value is unchanged under
reversal of the winding order whenever the oracle is odd under reversal. -/
theorem area_abs_of_signed (pa : List (ℚ × ℚ) → ℚ) (coords : List (ℚ × ℚ))
    (h3 : 3 ≤ coords.length) (hodd : pa coords.reverse = -pa coords) :
    calculate_area_m2 pa coords = |pa coords| ∧
    0 ≤ calculate_area_m2 pa coords ∧
    calculate_area_m2 pa coords.reverse = calculate_area_m2 pa coords := by
  refine ⟨rfl, abs_nonneg _, ?_⟩
  unfold calculate_area_m2
  rw [hodd, abs_neg]

/-- Witness for claim C8 on a concrete triangle with signed area negative 7:
the computed area is 7. -/
theorem area_abs_of_signed_witness :
    3 ≤ coordsW.length ∧
    paC8 coordsW.reverse = -paC8 coordsW ∧
    (calculate_area_m2 paC8 coordsW = |paC8 coordsW| ∧
     0 ≤ calculate_area_m2 paC8 coordsW ∧
     calculate_area_m2 paC8 coordsW.reverse = calculate_area_m2 paC8 coordsW) ∧
    calculate_area_m2 paC8 coordsW = 7 := by
  have h3 : 3 ≤ coordsW.length := by decide
  have hodd : paC8 coordsW.reverse = -paC8 coordsW := by
    simp [paC8, coordsW]
  refine ⟨h3, hodd, area_abs_of_signed paC8 coordsW h3 hodd, ?_⟩
  have hv : paC8 coordsW = -7 := by simp [paC8]
  rw [calculate_area_m2, hv]
  norm_num

/-- Claim C9: the manual estimation output does not depend on the numeric
open_space input; two requests differing only there produce identical
outputs. -/
theorem open_space_independence (rain : RainData) (gw : GWData)
    (req : ManualRequest) (os1 os2 : ℚ) :
    manual_calculate rain gw { req with open_space := os1 } =
      manual_calculate rain gw { req with open_space := os2 } := rfl

/-- Claim C10: a manual request whose state or district field is absent
raises at the unconditional upper-casing in the groundwater lookup of line
116 instead of returning the N/A defaults, even though the guarded rainfall
lookup of line 115 returns 0 for an absent state. -/
theorem absent_field_raises (rain : RainData) (gw : GWData)
    (req : ManualRequest) (h : req.state = none ∨ req.district = none) :
    (∃ e, manual_calculate rain gw req = Except.error e) ∧
    manualRainfall rain none = 0 := by
  refine ⟨?_, rfl⟩
  rcases h with hst | hd
  · have hs : manualAliasState req.state = none := by rw [hst]; rfl
    exact ⟨"AttributeError", by simp [manual_calculate, hs, pyUpper]⟩
  · cases hs : manualAliasState req.state with
    | none => exact ⟨"AttributeError", by simp [manual_calculate, hs, pyUpper]⟩
    | some s => exact ⟨"AttributeError", by simp [manual_calculate, hs, hd, pyUpper]⟩

/-- Witness for claim C10 on a request with an absent state field. -/
theorem absent_field_raises_witness :
    (req10.state = none ∨ req10.district = none) ∧
    ((∃ e, manual_calculate rainW gwW req10 = Except.error e) ∧
      manualRainfall rainW none = 0) ∧
    manual_calculate rainW gwW req10 = Except.error "AttributeError" := by
  refine ⟨Or.inl rfl, absent_field_raises rainW gwW req10 (Or.inl rfl), rfl⟩

end RainWater
